import Mathlib

/-!
# Station_Meteo_Connecte: verification of `main.cpp`

A shallow embedding of the firmware's single translation unit: the MQTT alert
handler `messageArrived`, the keep-alive callback `yield`, the publisher
`publishJson` / `UpdateData`, the button callback `toggleStreaming` and the
startup sequence `main`, followed by the theorems about them.

Collaborators (sensor, MQTT client, event queue, C library) are modelled at
their call boundary: every call is recorded in a trace and every value a
collaborator returns is an explicit input.
-/

namespace StationMeteo

/-! ## Inbound messages and the alert handler -/

/-- The fields of `MQTT::Message` the handler looks at.  `payload` is the
memory the payload pointer designates, indexed by byte offset: offsets below
`payloadlen` hold the payload, offsets from `payloadlen` on hold whatever the
transport keeps behind it. -/
structure Message where
  qos : Nat
  retained : Bool
  dup : Bool
  id : Nat
  payload : Nat → Nat
  payloadlen : Nat

/-- The bytes `p i, p (i+1), ..., p (i+n-1)`. -/
def readBytes (p : Nat → Nat) : Nat → Nat → List Nat
  | _, 0 => []
  | i, n + 1 => p i :: readBytes p (i + 1) n

/-- The declared payload of a message: its first `payloadlen` bytes. -/
def Message.bytes (m : Message) : List Nat :=
  readBytes m.payload 0 m.payloadlen

/-- The store `p[i] = v`. -/
def poke (p : Nat → Nat) (i v : Nat) : Nat → Nat :=
  fun j => if j = i then v else p j

/-- C `strcmp(s + i, lit)` for a string literal `lit`, given by its bytes
without the terminator: the difference of the first two bytes that differ,
`0` when `s + i` holds exactly `lit` followed by a zero byte. -/
def strcmpFrom (s : Nat → Nat) : Nat → List Nat → Int
  | i, [] => (s i : Int)
  | i, c :: cs => if s i = c then strcmpFrom s (i + 1) cs else (s i : Int) - (c : Int)

/-- C `strcmp(s, lit)`. -/
def strcmp (s : Nat → Nat) (lit : List Nat) : Int :=
  strcmpFrom s 0 lit

/-- The command string `":("`. -/
def sadCommand : List Nat := [58, 40]

/-- The two buffers `messageArrived` has a pointer to: the transport's payload
buffer and the block it obtains from `malloc`. -/
inductive Buffer
  | transport
  | heap
  deriving DecidableEq, Repr

/-- One memory access of the handler. -/
inductive Access
  | read (b : Buffer) (i : Nat)
  | write (b : Buffer) (i : Nat)
  deriving DecidableEq, Repr

/-- The reads of `printf("%.*s", n, p)` from offset `i`: at most `n` bytes,
stopping after a zero byte. -/
def precisionReads (p : Nat → Nat) : Nat → Nat → List Access
  | _, 0 => []
  | i, n + 1 => Access.read Buffer.transport i ::
      (if p i = 0 then [] else precisionReads p (i + 1) n)

/-- The reads of `strcmp(s + i, lit)` in the transport buffer. -/
def strcmpReads (s : Nat → Nat) : Nat → List Nat → List Access
  | i, [] => [Access.read Buffer.transport i]
  | i, c :: cs => Access.read Buffer.transport i ::
      (if s i = c then strcmpReads s (i + 1) cs else [])

/-- What one run of `messageArrived` leaves behind. -/
structure Arrival where
  /-- the value written to `led` -/
  led : Nat
  /-- the transport's memory after the handler -/
  payload : Nat → Nat
  /-- size of the block obtained from `malloc` (never freed) -/
  allocated : Nat
  /-- accesses to the two buffers, in program order -/
  accesses : List Access
  /-- the line printed by the branch taken -/
  said : String

/-- The handler `messageArrived`: `char_payload` is allocated with
`payloadlen + 1` bytes, then re-pointed at `message.payload`; the terminator
is stored through it and the result compared with `":("`. -/
def messageArrived (m : Message) : Arrival :=
  let shown := precisionReads m.payload 0 m.payloadlen
  let allocated := m.payloadlen + 1
  let char_payload := poke m.payload m.payloadlen 0
  let stored := [Access.write Buffer.transport m.payloadlen]
  let compared := strcmpReads char_payload 0 sadCommand
  if strcmp char_payload sadCommand = 0 then
    { led := 1, payload := char_payload, allocated := allocated,
      accesses := shown ++ stored ++ compared, said := "Que calor\n" }
  else
    { led := 0, payload := char_payload, allocated := allocated,
      accesses := shown ++ stored ++ compared, said := "Il fait bon :)\n" }

/-- A message whose transport memory starts with the bytes `bs` (zero bytes
behind them) and whose declared length is `n`. -/
def Message.ofBytes (bs : List Nat) (n : Nat) : Message :=
  { qos := 0, retained := false, dup := false, id := 0,
    payload := fun i => bs.getD i 0, payloadlen := n }

/-! ## Single-precision values and their `%.2f` rendering -/

/-- A binary32 datum.  `finite neg m e` is the number `± m · 2 ^ (e - 149)`;
it is a value of the format when `m < 2 ^ 24` and `e ≤ 253`. -/
inductive F32
  | finite (neg : Bool) (m e : Nat)
  | inf (neg : Bool)
  | nan
  deriving DecidableEq, Repr

/-- The finite values of the format, up to the largest one,
`(2 ^ 24 - 1) · 2 ^ 104`. -/
def F32.IsFinite : F32 → Prop
  | .finite _ m e => m < 2 ^ 24 ∧ e ≤ 253
  | _ => False

instance : DecidablePred F32.IsFinite := fun x =>
  match x with
  | .finite _ m e => inferInstanceAs (Decidable (m < 2 ^ 24 ∧ e ≤ 253))
  | .inf _ => isFalse (fun h => h)
  | .nan => isFalse (fun h => h)

/-- The quotient `a / b` rounded to the nearest integer, ties to even. -/
def roundHalfEven (a b : Nat) : Nat :=
  if 2 * (a % b) < b then a / b
  else if b < 2 * (a % b) then a / b + 1
  else if a / b % 2 = 0 then a / b else a / b + 1

/-- The least `E`, counting up from the given one for at most `fuel` steps,
with `a / b · 2 ^ 149 < 2 ^ (E + 24)`. -/
def exponentFor (a b : Nat) : Nat → Nat → Nat
  | 0, E => E
  | fuel + 1, E =>
      if a * 2 ^ 149 < b * 2 ^ (E + 24) then E else exponentFor a b fuel (E + 1)

/-- The positive rational `a / b` rounded to binary32, to nearest, ties to
even, with the sign `neg`. -/
def round32 (neg : Bool) (a b : Nat) : F32 :=
  let E := exponentFor a b 254 0
  if 253 < E then F32.inf neg
  else
    let m := roundHalfEven (a * 2 ^ 149) (b * 2 ^ E)
    if m < 2 ^ 24 then F32.finite neg m E
    else if E < 253 then F32.finite neg (2 ^ 23) (E + 1)
    else F32.inf neg

/-- The `int` operand `n` converted to `float` (exact for `n < 2 ^ 24`). -/
def F32.ofNat (n : Nat) : F32 := round32 false n 1

/-- Single-precision division `x / y`. -/
def F32.div : F32 → F32 → F32
  | .nan, _ => .nan
  | _, .nan => .nan
  | .inf _, .inf _ => .nan
  | .inf s, .finite t _ _ => .inf (xor s t)
  | .finite s _ _, .inf t => .finite (xor s t) 0 0
  | .finite s m e, .finite t n f =>
      if n = 0 then (if m = 0 then .nan else .inf (xor s t))
      else round32 (xor s t) (m * 2 ^ e) (n * 2 ^ f)

/-- The conversion `%.2f` of C `printf` applied to a `float` argument: sign,
integer part, point, two decimals, the exact value rounded to nearest at the
second decimal (ties to even). -/
def fmt2 : F32 → List Char
  | .finite neg m e =>
      let n := roundHalfEven (m * 2 ^ e * 100) (2 ^ 149)
      (if neg then ['-'] else []) ++ Nat.toDigits 10 (n / 100) ++
        ['.', Nat.digitChar (n / 10 % 10), Nat.digitChar (n % 10)]
  | .inf neg => (if neg then ['-'] else []) ++ ['i', 'n', 'f']
  | .nan => ['n', 'a', 'n']

/-- C `snprintf(buf, size, ...)`: of the full expansion, what fits `size`
bytes with the terminator is stored. -/
def snprintf (size : Nat) (expansion : List Char) : List Char :=
  expansion.take (size - 1)

/-- One reading as the sensor driver returns it (`pressure` in Pa). -/
structure Reading where
  temperature : F32
  humidity : F32
  pressure : F32

/-- The expansion of the format string of `UpdateData` for the three values
given to it. -/
def jsonExpansion (temperature humidity pressure : F32) : List Char :=
  "\x7b \"feeds\": \x7b \"Temperature\": \"".toList ++ fmt2 temperature ++
    "\", \"Humidity\": \"".toList ++ fmt2 humidity ++
    "\", \"Pressure\": \"".toList ++ fmt2 pressure ++ "\" \x7d \x7d".toList

/-- The contents of `jsonMessage` in `UpdateData` after `snprintf`. -/
def jsonMessage (r : Reading) : List Char :=
  snprintf 256 (jsonExpansion r.temperature r.humidity (F32.div r.pressure (F32.ofNat 100)))

/-! ## JSON texts and two-decimal numerals -/

/-- The text is a numeral with an optional minus sign, at least one digit
before the point and exactly two digits after it. -/
def isTwoDecimal (cs : List Char) : Bool :=
  let body := match cs with
    | c :: rest => if c = '-' then rest else cs
    | [] => cs
  !(body.takeWhile Char.isDigit).isEmpty &&
    match body.dropWhile Char.isDigit with
    | [p, a, b] => p = '.' && a.isDigit && b.isDigit
    | _ => false

/-- A JSON value; strings and numbers are kept as written. -/
inductive Json
  | null
  | bool (b : Bool)
  | num (text : List Char)
  | str (text : List Char)
  | arr (items : List Json)
  | obj (members : List (List Char × Json))
  deriving Repr

instance : Inhabited Json := ⟨Json.null⟩

/-- JSON white space. -/
def isWs (c : Char) : Bool :=
  c = ' ' || c = '\t' || c = '\n' || c = '\r'

/-- Drop leading white space. -/
def skipWs : List Char → List Char
  | [] => []
  | c :: cs => if isWs c then skipWs cs else c :: cs

/-- The characters that may follow a backslash in a string, `u` apart. -/
def isEscape (c : Char) : Bool :=
  c = '"' || c = '\\' || c = '/' || c = 'b' || c = 'f' || c = 'n' || c = 'r' || c = 't'

/-- A hexadecimal digit. -/
def isHex (c : Char) : Bool :=
  c.isDigit || (97 ≤ c.toNat && c.toNat ≤ 102) || (65 ≤ c.toNat && c.toNat ≤ 70)

/-- The rest of a string after its opening quote: its text and what follows
the closing quote.  The first argument is `0` in plain text, `1` after a
backslash and `k + 1` when `k` hexadecimal digits are still due. -/
def scanString : Nat → List Char → Option (List Char × List Char)
  | _, [] => none
  | 0, c :: cs =>
      if c = '"' then some ([], cs)
      else if c = '\\' then (scanString 1 cs).map fun r => (c :: r.1, r.2)
      else if c.toNat < 32 then none
      else (scanString 0 cs).map fun r => (c :: r.1, r.2)
  | 1, c :: cs =>
      if isEscape c then (scanString 0 cs).map fun r => (c :: r.1, r.2)
      else if c = 'u' then (scanString 5 cs).map fun r => (c :: r.1, r.2)
      else none
  | k + 2, c :: cs =>
      if isHex c then (scanString (if k = 0 then 0 else k + 1) cs).map fun r => (c :: r.1, r.2)
      else none

/-- A non-empty run of digits and what follows it. -/
def scanDigits (cs : List Char) : Option (List Char × List Char) :=
  if cs.takeWhile Char.isDigit = [] then none
  else some (cs.takeWhile Char.isDigit, cs.dropWhile Char.isDigit)

/-- An optional part of a number: absent, or introduced by a marker. -/
def scanFraction (cs : List Char) : Option (List Char × List Char) :=
  match cs with
  | c :: rest =>
      if c = '.' then (scanDigits rest).map fun r => (c :: r.1, r.2)
      else some ([], cs)
  | [] => some ([], cs)

/-- The exponent part of a number, if any. -/
def scanExponent (cs : List Char) : Option (List Char × List Char) :=
  match cs with
  | c :: rest =>
      if c = 'e' || c = 'E' then
        match rest with
        | s :: rest2 =>
            if s = '+' || s = '-' then (scanDigits rest2).map fun r => (c :: s :: r.1, r.2)
            else (scanDigits rest).map fun r => (c :: r.1, r.2)
        | [] => none
      else some ([], cs)
  | [] => some ([], cs)

/-- The integer part of a number: one digit, or several not starting with 0. -/
def scanInt (cs : List Char) : Option (List Char × List Char) :=
  match scanDigits cs with
  | some (ds, rest) => if 1 < ds.length && ds.head? = some '0' then none else some (ds, rest)
  | none => none

/-- A JSON number and what follows it. -/
def scanNumber (cs : List Char) : Option (List Char × List Char) :=
  let body := match cs with
    | c :: rest => if c = '-' then (['-'], rest) else ([], cs)
    | [] => ([], cs)
  match scanInt body.2 with
  | none => none
  | some (ip, r1) =>
    match scanFraction r1 with
    | none => none
    | some (fp, r2) =>
      match scanExponent r2 with
      | none => none
      | some (ep, r3) => some (body.1 ++ ip ++ fp ++ ep, r3)

/-- The input with the given word removed from its front. -/
def scanWord (word cs : List Char) : Option (List Char) :=
  if cs.take word.length = word then some (cs.drop word.length) else none

mutual
/-- A JSON value at the front of the input (no leading white space) and what
follows it; the first argument bounds the number of nested calls. -/
def parseValue : Nat → List Char → Option (Json × List Char)
  | 0, _ => none
  | _, [] => none
  | f + 1, c :: rest =>
      if c = '"' then (scanString 0 rest).map fun r => (Json.str r.1, r.2)
      else if c = '\x7b' then
        match skipWs rest with
        | [] => none
        | d :: more =>
            if d = '\x7d' then some (Json.obj [], more)
            else (parseMembers f (d :: more)).map fun r => (Json.obj r.1, r.2)
      else if c = '[' then
        match skipWs rest with
        | [] => none
        | d :: more =>
            if d = ']' then some (Json.arr [], more)
            else (parseElements f (d :: more)).map fun r => (Json.arr r.1, r.2)
      else if c = 't' then (scanWord ['r', 'u', 'e'] rest).map fun r => (Json.bool true, r)
      else if c = 'f' then (scanWord ['a', 'l', 's', 'e'] rest).map fun r => (Json.bool false, r)
      else if c = 'n' then (scanWord ['u', 'l', 'l'] rest).map fun r => (Json.null, r)
      else (scanNumber (c :: rest)).map fun r => (Json.num r.1, r.2)
/-- The members of an object up to its closing brace, and what follows it. -/
def parseMembers : Nat → List Char → Option (List (List Char × Json) × List Char)
  | 0, _ => none
  | _, [] => none
  | f + 1, c :: rest =>
      if c = '"' then
        match scanString 0 rest with
        | none => none
        | some (key, r1) =>
          match skipWs r1 with
          | [] => none
          | colon :: r2 =>
            if colon = ':' then
              match parseValue f (skipWs r2) with
              | none => none
              | some (v, r3) =>
                match skipWs r3 with
                | [] => none
                | d :: r4 =>
                    if d = ',' then
                      (parseMembers f (skipWs r4)).map fun r => ((key, v) :: r.1, r.2)
                    else if d = '\x7d' then some ([(key, v)], r4)
                    else none
            else none
      else none
/-- The elements of an array up to its closing bracket, and what follows it. -/
def parseElements : Nat → List Char → Option (List Json × List Char)
  | 0, _ => none
  | f + 1, cs =>
      match parseValue f cs with
      | none => none
      | some (v, r1) =>
        match skipWs r1 with
        | [] => none
        | d :: r2 =>
            if d = ',' then (parseElements f (skipWs r2)).map fun r => (v :: r.1, r.2)
            else if d = ']' then some ([v], r2)
            else none
end

/-- A complete JSON text: one value, white space around it, nothing else. -/
def parseJson (cs : List Char) : Option Json :=
  match parseValue (cs.length + 1) (skipWs cs) with
  | none => none
  | some (v, rest) => if skipWs rest = [] then some v else none

/-! ## Program state, collaborator calls and callbacks -/

/-- The topic `MQTT_TOPIC_PUBLISH`. -/
def MQTT_TOPIC_PUBLISH : String := "Bodhix20/groups/Station_Meteo/json"

/-- The topic `MQTT_TOPIC_SUBSCRIBE`. -/
def MQTT_TOPIC_SUBSCRIBE : String := "Bodhix20/feeds/station-meteo.alert"

/-- The period `SYNC_INTERVAL`, in seconds. -/
def SYNC_INTERVAL : Nat := 1

/-- A call the program makes on a collaborator. -/
inductive Call
  | printf (format : String)
  | sensorInitialize
  | sensorSetSampling
  | sensorTemperature
  | sensorHumidity
  | sensorPressure
  | getDefaultInstance
  | dnsAddServer
  | networkConnect
  | getIpAddress
  | gethostbyname
  | setPort
  | socketOpen
  | socketConnect
  | clientConnect
  | clientSubscribe (topic : String) (qos : Nat)
  | clientYield (ms : Nat)
  | clientPublish (topic : String) (qos : Nat) (payload : List Char) (payloadlen : Nat)
  | queueCallEvery (ms : Nat)
  | queueCancel (id : Int)
  | queueBreakDispatch
  | queueDispatchForever
  | tickerAttach (seconds : Nat)
  | buttonFall
  | systemReset
  deriving DecidableEq, Repr

/-- The callbacks the event queue runs. -/
inductive Callback
  | yield
  | UpdateData
  | toggleStreaming
  deriving DecidableEq, Repr

/-- The globals of `main.cpp` and the state of its collaborators. -/
structure State where
  /-- `led` -/
  led : Nat
  /-- `streaming_enabled` -/
  streaming_enabled : Bool
  /-- `rc` -/
  rc : Int
  /-- `id_yield` -/
  id_yield : Int
  /-- ids of the periodic `yield` events registered in `main_queue` -/
  periodic : List Int
  /-- `dataTicker` is attached and posts `UpdateData` every 5 s -/
  tickerAttached : Bool
  /-- the falling edge of `button` posts `toggleStreaming` -/
  buttonArmed : Bool
  /-- `main_queue.dispatch_forever()` has been entered -/
  dispatching : Bool
  /-- `main_queue.break_dispatch()` has been called -/
  breakRequested : Bool
  /-- `system_reset()` has been called: the run of the program is over -/
  resetIssued : Bool
  /-- collaborator calls so far, oldest first -/
  calls : List Call
  /-- callbacks the queue has run so far, oldest first -/
  ran : List Callback

/-- The globals as their initialisers leave them. -/
def State.init : State :=
  { led := 1, streaming_enabled := true, rc := 0, id_yield := 0, periodic := [],
    tickerAttached := false, buttonArmed := false, dispatching := false,
    breakRequested := false, resetIssued := false, calls := [], ran := [] }

/-- Record one collaborator call. -/
def State.call (s : State) (c : Call) : State :=
  { s with calls := s.calls ++ [c] }

/-- The number of `client->publish` calls in a trace. -/
def publishCount (cs : List Call) : Nat :=
  cs.countP fun c => match c with
    | .clientPublish _ _ _ _ => true
    | _ => false

/-- The number of sensor reads in a trace. -/
def sensorReadCount (cs : List Call) : Nat :=
  cs.countP fun c => match c with
    | .sensorTemperature => true
    | .sensorHumidity => true
    | .sensorPressure => true
    | _ => false

/-- The calls of the fault path of `yield`, in the order made. -/
def faultActions (cs : List Call) : List Call :=
  cs.filter fun c => match c with
    | .queueCancel _ => true
    | .queueBreakDispatch => true
    | .systemReset => true
    | _ => false

/-- The calls by which `main` subscribes, registers the periodic work and
enters the dispatch loop. -/
def startupActions (cs : List Call) : List Call :=
  cs.filter fun c => match c with
    | .clientSubscribe _ _ => true
    | .queueCallEvery _ => true
    | .tickerAttach _ => true
    | .queueDispatchForever => true
    | _ => false

/-- A call is a line of log output. -/
def Call.isPrintf : Call → Bool
  | .printf _ => true
  | _ => false

/-- The client hands one inbound message to `messageArrived`. -/
def deliver (s : State) (m : Message) : State :=
  let s := s.call (.printf "Message arrived: qos %d, retained %d, dup %d, packetid %d\r\n")
  let s := s.call (.printf "Payload %.*s\r\n")
  let a := messageArrived m
  { s with led := a.led } |>.call (.printf a.said)

/-- `main_queue.cancel(id)`: the event with this id is removed, if there. -/
def State.cancel (s : State) (id : Int) : State :=
  { s with periodic := s.periodic.filter (fun j => j != id) } |>.call (.queueCancel id)

/-- `main_queue.break_dispatch()`. -/
def State.breakDispatch (s : State) : State :=
  { s with breakRequested := true } |>.call .queueBreakDispatch

/-- `system_reset()`: the processor resets, the call does not return. -/
def State.systemReset (s : State) : State :=
  { s with resetIssued := true } |>.call .systemReset

/-- The callback `yield`.  `rcv` is what `client->yield(100)` returns and
`inbound` the messages the client hands to `messageArrived` meanwhile. -/
def yield (rcv : Int) (inbound : List Message) (s : State) : State :=
  let s := inbound.foldl deliver (s.call (.clientYield 100))
  let s := { s with rc := rcv }
  if rcv ≠ 0 then
    ((((s.call (.printf "Yield error: %d\n")).cancel s.id_yield).breakDispatch).systemReset)
  else s

/-- The conversion of an `int` to `int8_t`. -/
def toInt8 (x : Int) : Int := (x + 128) % 256 - 128

/-- The function `publishJson`.  `pubRc` is what `client->publish` returns. -/
def publishJson (jsonPayload : List Char) (pubRc : Int) (s : State) : Int × State :=
  let s := s.call (.printf "Send JSON: %s to MQTT Broker: %s at thread %s\n")
  let s := s.call (.clientPublish MQTT_TOPIC_PUBLISH 1 jsonPayload jsonPayload.length)
  if pubRc ≠ 0 then (toInt8 pubRc, s.call (.printf "Failed to publish: %d\n"))
  else (0, s)

/-- The callback `toggleStreaming`. -/
def toggleStreaming (s : State) : State :=
  let s := { s with streaming_enabled := !s.streaming_enabled }
  if s.streaming_enabled then s.call (.printf "Data streaming enabled.\n")
  else s.call (.printf "Data streaming disabled.\n")

/-- The callback `UpdateData`.  `r` is what the sensor returns to the three
reads and `pubRc` what `client->publish` returns. -/
def UpdateData (r : Reading) (pubRc : Int) (s : State) : State :=
  if s.streaming_enabled then
    let s := ((s.call .sensorTemperature).call .sensorHumidity).call .sensorPressure
    let sent := publishJson (jsonMessage r) pubRc s
    if sent.1 ≠ 0 then sent.2.call (.printf "Failed to publish message.\n")
    else sent.2
  else s

/-! ## The dispatch loop -/

/-- What the dispatch loop can be woken by. -/
inductive Event
  | keepAliveTick (rcv : Int) (inbound : List Message)
  | sampleTick (r : Reading) (pubRc : Int)
  | buttonFall

/-- The loop of `dispatch_forever` is serving events. -/
def State.serving (s : State) : Bool :=
  s.dispatching && !s.breakRequested && !s.resetIssued

/-- Note that the queue runs a callback. -/
def State.run (s : State) (c : Callback) : State :=
  { s with ran := s.ran ++ [c] }

/-- One event of the dispatch loop: the callback bound to the event runs to
completion if the loop is serving and the binding is in place. -/
def step (s : State) : Event → State
  | .keepAliveTick rcv inbound =>
      if s.serving && !s.periodic.isEmpty then yield rcv inbound (s.run .yield) else s
  | .sampleTick r pubRc =>
      if s.serving && s.tickerAttached then UpdateData r pubRc (s.run .UpdateData) else s
  | .buttonFall =>
      if s.serving && s.buttonArmed then toggleStreaming (s.run .toggleStreaming) else s

/-- A sequence of events, served in order. -/
def steps (s : State) (evs : List Event) : State :=
  evs.foldl step s

/-! ## Startup -/

/-- What the collaborators answer during `main`. -/
structure Boot where
  /-- `sensor.initialize()` -/
  sensorInitialize : Bool
  /-- `NetworkInterface::get_default_instance()` is not null -/
  networkFound : Bool
  /-- `network->connect()` -/
  networkConnect : Int
  /-- `socket.connect(address)` -/
  socketConnect : Int
  /-- `client->connect(data)` -/
  clientConnect : Int
  /-- `client->subscribe(...)` -/
  clientSubscribe : Int
  /-- `client->yield(100)` in the direct call of `yield` -/
  firstYield : Int
  /-- messages handed to `messageArrived` during that call -/
  firstInbound : List Message
  /-- `main_queue.call_every(...)`: the id of the event, `0` if none was allocated -/
  callEvery : Int

/-- How `main` ends. -/
inductive Outcome
  | returned (code : Int)
  | reset
  | dispatch
  deriving DecidableEq, Repr

/-- The assignment `rc = v`. -/
def State.setRc (s : State) (v : Int) : State :=
  { s with rc := v }

/-- `id_yield = main_queue.call_every(SYNC_INTERVAL * 1000, yield)`: the event
is registered under the id the queue allocates (`0`: none allocated). -/
def State.callEvery (s : State) (id : Int) : State :=
  { s.call (.queueCallEvery (SYNC_INTERVAL * 1000)) with
    id_yield := id, periodic := if id = 0 then s.periodic else id :: s.periodic }

/-- `dataTicker.attach(main_queue.event(UpdateData), 5s)`. -/
def State.attachTicker (s : State) : State :=
  { s.call (.tickerAttach 5) with tickerAttached := true }

/-- `button.fall(main_queue.event(toggleStreaming))`. -/
def State.armButton (s : State) : State :=
  { s.call .buttonFall with buttonArmed := true }

/-- `main_queue.dispatch_forever()` is entered. -/
def State.dispatchForever (s : State) : State :=
  { s.call .queueDispatchForever with dispatching := true }

/-- The end of `main`, from the direct call of `yield` on. -/
def mainLoop (b : Boot) (s : State) : Outcome × State :=
  let s := yield b.firstYield b.firstInbound s
  if s.resetIssued then (.reset, s)
  else (.dispatch, (((s.callEvery b.callEvery).attachTicker).armButton).dispatchForever)

/-- The part of `main` from `client->connect(data)` to the subscription: both
results are looked at for the log only. -/
def mainSubscribe (b : Boot) (s : State) : State :=
  let s := s.call .clientConnect
  let s := if b.clientConnect ≠ 0 then s.call (.printf "Connection to MQTT Broker Failed\n")
    else s.call (.printf "Connected to MQTT broker\n")
  let s := (s.call (.clientSubscribe MQTT_TOPIC_SUBSCRIBE 0)).setRc b.clientSubscribe
  let s := if s.rc ≠ 0 then s.call (.printf "rc from MQTT subscribe is %d\r\n") else s
  s.call (.printf "Subscribed to Topic: %s\n")

/-- The part of `main` from "MQTT Connection" on, after the socket is open. -/
def mainMqtt (b : Boot) (s : State) : Outcome × State :=
  let s := (s.call .socketConnect).setRc b.socketConnect
  if s.rc ≠ 0 then
    (.returned s.rc, s.call (.printf "Connection to MQTT broker Failed\n"))
  else
    mainLoop b (mainSubscribe b s)

/-- The part of `main` from "Get Network configuration" on. -/
def mainNetwork (b : Boot) (s : State) : Outcome × State :=
  let s := s.call .getDefaultInstance
  if !b.networkFound then
    (.returned 0, s.call (.printf "Error! No network interface found.\n"))
  else
    let s := ((s.call .dnsAddServer).call .networkConnect).setRc b.networkConnect
    if s.rc ≠ 0 then
      (.returned s.rc, s.call (.printf "Error! net->connect() returned: %d\n"))
    else
      let s := (s.call .getIpAddress).call (.printf "IP address: %s\n")
      mainMqtt b (((s.call .gethostbyname).call .setPort).call .socketOpen)

/-- The function `main`, up to the point where it returns, the device resets
or the dispatch loop is entered. -/
def main (b : Boot) : Outcome × State :=
  let s := State.init.call .sensorInitialize
  if !b.sensorInitialize then
    (.returned (-1), s.call (.printf "Failed to initialize BME280 sensor.\n"))
  else
    let s := s.call .sensorSetSampling
    mainNetwork b (s.call (.printf "Connecting to border router...\n"))

/-! ## Sample inputs -/

/-- A startup in which every collaborator succeeds; the queue allocates id 7. -/
def Boot.allFine : Boot :=
  { sensorInitialize := true, networkFound := true, networkConnect := 0, socketConnect := 0,
    clientConnect := 0, clientSubscribe := 0, firstYield := 0, firstInbound := [],
    callEvery := 7 }

/-- The same startup with the MQTT handshake refused (`client->connect` returns -1). -/
def Boot.handshakeRefused : Boot :=
  { Boot.allFine with clientConnect := -1 }

/-- The same startup with the TCP connection refused (`socket.connect` returns -3004). -/
def Boot.socketRefused : Boot :=
  { Boot.allFine with socketConnect := -3004 }

/-- The reading 23.456 °C, 55.1 %RH, 101325 Pa, each the nearest binary32. -/
def Reading.sample : Reading :=
  { temperature := round32 false 23456 1000, humidity := round32 false 551 10,
    pressure := round32 false 101325 1 }

/-! ## Theorems -/

theorem strcmp_sad_eq_zero (s : Nat → Nat) :
    strcmp s sadCommand = 0 ↔ s 0 = 58 ∧ s 1 = 40 ∧ s 2 = 0 := by
  unfold strcmp sadCommand
  simp only [strcmpFrom]
  by_cases h0 : s 0 = 58
  · by_cases h1 : s 1 = 40
    · simp [h0, h1]
    · simp [h0, h1]; omega
  · simp [h0]; omega

theorem terminated_sad_iff (p : Nat → Nat) (n : Nat) :
    (poke p n 0 0 = 58 ∧ poke p n 0 1 = 40 ∧ poke p n 0 2 = 0) ↔
      (readBytes p 0 n).takeWhile (fun b => b != 0) = [58, 40] := by
  match n with
  | 0 => simp [poke, readBytes]
  | 1 =>
    simp only [poke, readBytes, List.takeWhile_cons, List.takeWhile_nil]
    by_cases h0 : p 0 = 0 <;> simp [h0]
  | 2 =>
    simp only [poke, readBytes, List.takeWhile_cons, List.takeWhile_nil]
    by_cases h0 : p 0 = 0 <;> by_cases h1 : p 1 = 0 <;> simp [h0, h1]
  | n + 3 =>
    simp only [poke, readBytes, List.takeWhile_cons, List.takeWhile_nil]
    by_cases h0 : p 0 = 0 <;> by_cases h1 : p 1 = 0 <;> by_cases h2 : p 2 = 0 <;>
      simp [h0, h1, h2]

/-! ### The alert handler -/

theorem messageArrived_led_eq (m : Message) :
    (messageArrived m).led =
      if m.bytes.takeWhile (fun b => b != 0) = [58, 40] then 1 else 0 := by
  unfold messageArrived Message.bytes
  simp only []
  by_cases h : strcmp (poke m.payload m.payloadlen 0) sadCommand = 0
  · rw [if_pos h, if_pos ((terminated_sad_iff _ _).1 ((strcmp_sad_eq_zero _).1 h))]
  · rw [if_neg h, if_neg]
    intro h2
    exact h ((strcmp_sad_eq_zero _).2 ((terminated_sad_iff _ _).2 h2))

theorem messageArrived_accesses (m : Message) :
    (messageArrived m).accesses =
      precisionReads m.payload 0 m.payloadlen ++
        [Access.write Buffer.transport m.payloadlen] ++
        strcmpReads (poke m.payload m.payloadlen 0) 0 sadCommand := by
  unfold messageArrived
  simp only []
  split <;> rfl

/-- C1, as the code has it: the indicator is switched on exactly when the
payload's bytes before its first zero byte (all of them when none is zero)
are the two bytes `:(`, and is switched off otherwise. -/
theorem messageArrived_led_iff (m : Message) :
    ((messageArrived m).led = 1 ↔ m.bytes.takeWhile (fun b => b != 0) = [58, 40]) ∧
    ((messageArrived m).led = 0 ↔ m.bytes.takeWhile (fun b => b != 0) ≠ [58, 40]) := by
  rw [messageArrived_led_eq]
  by_cases h : m.bytes.takeWhile (fun b => b != 0) = [58, 40] <;> simp [h]

/-- C1 fails as stated: the four-byte payload `:(`, zero, `x` switches the
indicator on although it is not the two bytes `:(`. -/
theorem messageArrived_led_on_for_longer_payload :
    (Message.ofBytes [58, 40, 0, 120] 4).bytes = [58, 40, 0, 120] ∧
    (Message.ofBytes [58, 40, 0, 120] 4).bytes ≠ [58, 40] ∧
    (messageArrived (Message.ofBytes [58, 40, 0, 120] 4)).led = 1 := by
  decide

/-- C9 at the payload `:(` of declared length 2: the handler obtains three
bytes from `malloc` and never touches them; it stores the terminator at index
2 of the transport's buffer and compares that buffer, reading index 2. -/
theorem messageArrived_writes_past_payload :
    (messageArrived (Message.ofBytes [58, 40] 2)).allocated = 3 ∧
    (messageArrived (Message.ofBytes [58, 40] 2)).accesses =
      [Access.read Buffer.transport 0, Access.read Buffer.transport 1,
       Access.write Buffer.transport 2,
       Access.read Buffer.transport 0, Access.read Buffer.transport 1,
       Access.read Buffer.transport 2] := by
  decide

/-! ### The streaming flag -/

theorem toggleStreaming_enabled (s : State) :
    (toggleStreaming s).streaming_enabled = !s.streaming_enabled := by
  unfold toggleStreaming
  simp only []
  split <;> rfl

/-- C6: `n` applications of `toggleStreaming` leave `streaming_enabled` as it
was when `n` is even and negate it when `n` is odd. -/
theorem toggleStreaming_iterate (s : State) (n : Nat) :
    (toggleStreaming^[n] s).streaming_enabled =
      if n % 2 = 0 then s.streaming_enabled else !s.streaming_enabled := by
  induction n with
  | zero => simp
  | succ k ih =>
    rw [Function.iterate_succ_apply', toggleStreaming_enabled, ih]
    rcases Nat.mod_two_eq_zero_or_one k with h | h
    · have h2 : (k + 1) % 2 = 1 := by omega
      simp [h, h2]
    · have h2 : (k + 1) % 2 = 0 := by omega
      simp [h, h2]

/-! ### Shape of the callbacks -/

theorem foldl_deliver_shape (ms : List Message) (s : State) :
    ∃ l logs, ms.foldl deliver s = { s with led := l, calls := s.calls ++ logs } ∧
      ∀ c ∈ logs, c.isPrintf = true := by
  induction ms generalizing s with
  | nil => exact ⟨s.led, [], by simp, by simp⟩
  | cons m ms ih =>
    obtain ⟨l, logs, h, hl⟩ := ih (deliver s m)
    refine ⟨l, [.printf "Message arrived: qos %d, retained %d, dup %d, packetid %d\r\n",
      .printf "Payload %.*s\r\n", .printf (messageArrived m).said] ++ logs, ?_, ?_⟩
    · rw [List.foldl_cons, h]
      simp [deliver, State.call]
    · intro c hc
      rcases List.mem_append.1 hc with h1 | h1
      · simp at h1
        rcases h1 with h1 | h1 | h1 <;> simp [h1, Call.isPrintf]
      · exact hl c h1

theorem filter_logs_eq_nil (f : Call → Bool) (hf : ∀ t, f (.printf t) = false)
    (logs : List Call) (h : ∀ c ∈ logs, c.isPrintf = true) : logs.filter f = [] := by
  rw [List.filter_eq_nil_iff]
  intro c hc
  have := h c hc
  cases c <;> simp_all [Call.isPrintf]

theorem yield_shape (rcv : Int) (inbound : List Message) (s : State) :
    ∃ l logs, (∀ c ∈ logs, c.isPrintf = true) ∧
      yield rcv inbound s =
        if rcv ≠ 0 then
          { s with
            led := l, rc := rcv,
            calls := s.calls ++ [.clientYield 100] ++ logs ++
              [.printf "Yield error: %d\n", .queueCancel s.id_yield,
               .queueBreakDispatch, .systemReset],
            periodic := s.periodic.filter (fun j => j != s.id_yield),
            breakRequested := true, resetIssued := true }
        else
          { s with led := l, rc := rcv, calls := s.calls ++ [.clientYield 100] ++ logs } := by
  obtain ⟨l, logs, h, hl⟩ := foldl_deliver_shape inbound (s.call (.clientYield 100))
  refine ⟨l, logs, hl, ?_⟩
  unfold yield
  simp only [h]
  by_cases hr : rcv ≠ 0
  · simp [hr, State.call, State.cancel, State.breakDispatch, State.systemReset]
  · simp [hr, State.call]

theorem step_of_not_serving (s : State) (ev : Event) (h : s.serving = false) :
    step s ev = s := by
  cases ev <;> simp [step, h]

theorem steps_of_not_serving (s : State) (evs : List Event) (h : s.serving = false) :
    steps s evs = s := by
  induction evs with
  | nil => rfl
  | cons ev evs ih =>
    unfold steps at ih ⊢
    rw [List.foldl_cons, step_of_not_serving s ev h]
    exact ih

/-! ### The fault path -/

/-- C2, as the code has it: when `client->yield` returns a non-zero code the
callback cancels the event `id_yield` (the keep-alive task, and no other),
then stops the dispatch loop, then resets the device, each once and in this
order, and leaves `dataTicker` attached; the queue then holds the periodic
events it held, less the one with id `id_yield`.  When it returns zero it
does none of the three and the queue keeps its periodic events. -/
theorem yield_fault_actions (rcv : Int) (inbound : List Message) (s : State) :
    faultActions (yield rcv inbound s).calls =
      faultActions s.calls ++
        (if rcv ≠ 0 then [.queueCancel s.id_yield, .queueBreakDispatch, .systemReset]
         else []) ∧
    (yield rcv inbound s).tickerAttached = s.tickerAttached ∧
    (yield rcv inbound s).resetIssued = (s.resetIssued || decide (rcv ≠ 0)) ∧
    (yield rcv inbound s).breakRequested = (s.breakRequested || decide (rcv ≠ 0)) ∧
    (yield rcv inbound s).periodic =
      (if rcv ≠ 0 then s.periodic.filter (fun j => j != s.id_yield) else s.periodic) := by
  obtain ⟨l, logs, hl, h⟩ := yield_shape rcv inbound s
  have hlogs : faultActions logs = [] :=
    filter_logs_eq_nil _ (fun _ => rfl) logs hl
  unfold faultActions at hlogs ⊢
  rw [h]
  by_cases hr : rcv ≠ 0
  · simp [hr, hlogs, List.filter_append]
  · simp [hr, hlogs, List.filter_append]

/-- C2 fails as stated: with the keep-alive task (id 7) and the 5-second
ticker both in place, a failing keep-alive cancels id 7 only; the ticker of
the sample-and-publish task stays attached. -/
theorem yield_leaves_ticker_attached :
    (main Boot.allFine).2.periodic = [7] ∧
    (main Boot.allFine).2.tickerAttached = true ∧
    faultActions (yield (-1) [] (main Boot.allFine).2).calls =
      [.queueCancel 7, .queueBreakDispatch, .systemReset] ∧
    (yield (-1) [] (main Boot.allFine).2).periodic = [] ∧
    (yield (-1) [] (main Boot.allFine).2).tickerAttached = true := by
  decide

/-- C3: once a keep-alive tick has run and `client->yield` has returned a
non-zero code, no later event runs a callback: the list of callbacks run, and
the whole state, stay as that tick left them. -/
theorem no_callback_after_failed_keepalive (s : State) (rcv : Int) (inbound : List Message)
    (evs : List Event) (hr : rcv ≠ 0) (hs : s.serving = true) (hp : s.periodic ≠ []) :
    (step s (.keepAliveTick rcv inbound)).ran = s.ran ++ [.yield] ∧
    (steps (step s (.keepAliveTick rcv inbound)) evs).ran = s.ran ++ [.yield] ∧
    steps (step s (.keepAliveTick rcv inbound)) evs = step s (.keepAliveTick rcv inbound) := by
  have hstep : step s (.keepAliveTick rcv inbound) = yield rcv inbound (s.run .yield) := by
    simp [step, hs, hp]
  obtain ⟨l, logs, _, h⟩ := yield_shape rcv inbound (s.run .yield)
  rw [if_pos hr] at h
  have hran : (step s (.keepAliveTick rcv inbound)).ran = s.ran ++ [.yield] := by
    rw [hstep, h]; rfl
  have hoff : (step s (.keepAliveTick rcv inbound)).serving = false := by
    rw [hstep, h]; simp [State.serving]
  have hfix := steps_of_not_serving _ evs hoff
  exact ⟨hran, by rw [hfix, hran], hfix⟩

/-- C3 at a concrete run: after startup, a keep-alive tick returning -1 is
followed by a sample tick, a keep-alive tick and a button press, none of
which runs. -/
theorem no_callback_after_failed_keepalive_witness :
    (-1 : Int) ≠ 0 ∧ (main Boot.allFine).2.serving = true ∧
    (main Boot.allFine).2.periodic ≠ [] ∧
    ((step (main Boot.allFine).2 (.keepAliveTick (-1) [])).ran =
        (main Boot.allFine).2.ran ++ [.yield] ∧
      (steps (step (main Boot.allFine).2 (.keepAliveTick (-1) []))
          [.sampleTick Reading.sample 0, .keepAliveTick 0 [], .buttonFall]).ran =
        (main Boot.allFine).2.ran ++ [.yield] ∧
      steps (step (main Boot.allFine).2 (.keepAliveTick (-1) []))
          [.sampleTick Reading.sample 0, .keepAliveTick 0 [], .buttonFall] =
        step (main Boot.allFine).2 (.keepAliveTick (-1) [])) :=
  ⟨by decide, by decide, by decide,
    no_callback_after_failed_keepalive _ (-1) [] _ (by decide) (by decide) (by decide)⟩

/-! ### Publishing -/

theorem UpdateData_shape (r : Reading) (pubRc : Int) (s : State) :
    UpdateData r pubRc s =
      if s.streaming_enabled then
        { s with calls := s.calls ++
            [.sensorTemperature, .sensorHumidity, .sensorPressure,
             .printf "Send JSON: %s to MQTT Broker: %s at thread %s\n",
             .clientPublish MQTT_TOPIC_PUBLISH 1 (jsonMessage r) (jsonMessage r).length] ++
            (if pubRc ≠ 0 then [.printf "Failed to publish: %d\n"] else []) ++
            (if pubRc ≠ 0 ∧ toInt8 pubRc ≠ 0 then [.printf "Failed to publish message.\n"]
             else []) }
      else s := by
  unfold UpdateData publishJson
  by_cases he : s.streaming_enabled = true
  · by_cases hp : pubRc ≠ 0
    · by_cases h8 : toInt8 pubRc ≠ 0
      · simp [he, hp, h8, State.call]
      · simp [he, hp, h8, State.call]
    · simp [he, hp, State.call]
  · simp [he]

theorem UpdateData_publishCount (r : Reading) (pubRc : Int) (s : State) :
    publishCount (UpdateData r pubRc s).calls =
      publishCount s.calls + (if s.streaming_enabled then 1 else 0) := by
  rw [UpdateData_shape]
  by_cases he : s.streaming_enabled = true
  · simp only [he, if_true, publishCount, List.countP_append]
    by_cases hp : pubRc ≠ 0 <;> by_cases h8 : toInt8 pubRc ≠ 0 <;>
      simp [hp, h8, List.countP_cons]
  · simp [he]

theorem UpdateData_sensorReadCount (r : Reading) (pubRc : Int) (s : State) :
    sensorReadCount (UpdateData r pubRc s).calls =
      sensorReadCount s.calls + (if s.streaming_enabled then 3 else 0) := by
  rw [UpdateData_shape]
  by_cases he : s.streaming_enabled = true
  · simp only [he, if_true, sensorReadCount, List.countP_append]
    by_cases hp : pubRc ≠ 0 <;> by_cases h8 : toInt8 pubRc ≠ 0 <;>
      simp [hp, h8, List.countP_cons]
  · simp [he]

theorem UpdateData_of_disabled (ticks : List (Reading × Int)) (s : State)
    (h : s.streaming_enabled = false) :
    ticks.foldl (fun st t => UpdateData t.1 t.2 st) s = s := by
  induction ticks with
  | nil => rfl
  | cons t ts ih =>
    rw [List.foldl_cons]
    have : UpdateData t.1 t.2 s = s := by simp [UpdateData, h]
    rw [this]
    exact ih

/-- C5: any number of sample ticks run while `streaming_enabled` is false
make no publish call and read no sensor value (they change nothing at all);
a sample tick run while it is true makes exactly one publish call, after
reading the three sensor values. -/
theorem UpdateData_publishes_iff_enabled (s : State) (r : Reading) (pubRc : Int)
    (ticks : List (Reading × Int)) :
    (s.streaming_enabled = false →
      publishCount (ticks.foldl (fun st t => UpdateData t.1 t.2 st) s).calls =
          publishCount s.calls ∧
        sensorReadCount (ticks.foldl (fun st t => UpdateData t.1 t.2 st) s).calls =
          sensorReadCount s.calls ∧
        ticks.foldl (fun st t => UpdateData t.1 t.2 st) s = s) ∧
    (s.streaming_enabled = true →
      publishCount (UpdateData r pubRc s).calls = publishCount s.calls + 1 ∧
        sensorReadCount (UpdateData r pubRc s).calls = sensorReadCount s.calls + 3) := by
  constructor
  · intro h
    rw [UpdateData_of_disabled ticks s h]
    exact ⟨rfl, rfl, rfl⟩
  · intro h
    rw [UpdateData_publishCount, UpdateData_sensorReadCount, h]
    exact ⟨rfl, rfl⟩

/-- C5 at concrete states: three sample ticks after one press of the button
(streaming disabled) and one sample tick in the initial state (streaming
enabled). -/
theorem UpdateData_publishes_iff_enabled_witness :
    (toggleStreaming State.init).streaming_enabled = false ∧
    State.init.streaming_enabled = true ∧
    (publishCount (([(Reading.sample, 0), (Reading.sample, -1), (Reading.sample, 0)] :
          List (Reading × Int)).foldl
        (fun st t => UpdateData t.1 t.2 st) (toggleStreaming State.init)).calls =
          publishCount (toggleStreaming State.init).calls ∧
      sensorReadCount (([(Reading.sample, 0), (Reading.sample, -1), (Reading.sample, 0)] :
          List (Reading × Int)).foldl
        (fun st t => UpdateData t.1 t.2 st) (toggleStreaming State.init)).calls =
          sensorReadCount (toggleStreaming State.init).calls ∧
      ([(Reading.sample, 0), (Reading.sample, -1), (Reading.sample, 0)] :
          List (Reading × Int)).foldl
        (fun st t => UpdateData t.1 t.2 st) (toggleStreaming State.init) =
          toggleStreaming State.init) ∧
    (publishCount (UpdateData Reading.sample 0 State.init).calls =
        publishCount State.init.calls + 1 ∧
      sensorReadCount (UpdateData Reading.sample 0 State.init).calls =
        sensorReadCount State.init.calls + 3) :=
  ⟨by decide, by decide,
    (UpdateData_publishes_iff_enabled (toggleStreaming State.init) Reading.sample 0
      [(Reading.sample, 0), (Reading.sample, -1), (Reading.sample, 0)]).1 (by decide),
    (UpdateData_publishes_iff_enabled State.init Reading.sample 0 []).2 (by decide)⟩

/-! ### Startup -/

theorem countP_logs_eq_zero (f : Call → Bool) (hf : ∀ t, f (.printf t) = false)
    (logs : List Call) (h : ∀ c ∈ logs, c.isPrintf = true) : logs.countP f = 0 := by
  rw [List.countP_eq_length_filter, filter_logs_eq_nil f hf logs h]
  rfl

theorem yield_publishCount (rcv : Int) (inbound : List Message) (s : State) :
    publishCount (yield rcv inbound s).calls = publishCount s.calls := by
  obtain ⟨l, logs, hl, h⟩ := yield_shape rcv inbound s
  have hlogs : publishCount logs = 0 := countP_logs_eq_zero _ (fun _ => rfl) logs hl
  unfold publishCount at hlogs ⊢
  rw [h]
  by_cases hr : rcv ≠ 0
  · simp [hr, hlogs, List.countP_append, List.countP_cons]
  · simp [hr, hlogs, List.countP_append, List.countP_cons]

theorem mainLoop_spec (b : Boot) (s : State) (h0 : s.resetIssued = false)
    (hd : s.dispatching = false) :
    ((mainLoop b s).1 = .dispatch → b.firstYield = 0) ∧
    ((mainLoop b s).1 ≠ .dispatch → (mainLoop b s).2.dispatching = false) ∧
    publishCount (mainLoop b s).2.calls = publishCount s.calls := by
  have hp := yield_publishCount b.firstYield b.firstInbound s
  obtain ⟨l, logs, hl, h⟩ := yield_shape b.firstYield b.firstInbound s
  unfold mainLoop
  by_cases hr : b.firstYield ≠ 0
  · rw [if_pos hr] at h
    have hres : (yield b.firstYield b.firstInbound s).resetIssued = true := by rw [h]
    have hdis : (yield b.firstYield b.firstInbound s).dispatching = false := by rw [h]; exact hd
    simp only [hres, if_true]
    exact ⟨fun hh => (by cases hh), fun _ => hdis, hp⟩
  · rw [if_neg hr] at h
    have hres : (yield b.firstYield b.firstInbound s).resetIssued = false := by rw [h]; exact h0
    simp only [hres]
    refine ⟨fun _ => by simpa using hr, fun hh => absurd rfl hh, ?_⟩
    rw [← hp]
    simp [State.dispatchForever, State.armButton, State.attachTicker, State.callEvery,
      State.call, publishCount, List.countP_append, List.countP_cons]

theorem mainSubscribe_shape (b : Boot) (s : State) :
    mainSubscribe b s =
      { s with
        rc := b.clientSubscribe,
        calls := s.calls ++
          [.clientConnect,
           .printf (if b.clientConnect ≠ 0 then "Connection to MQTT Broker Failed\n"
             else "Connected to MQTT broker\n"),
           .clientSubscribe MQTT_TOPIC_SUBSCRIBE 0] ++
          (if b.clientSubscribe ≠ 0 then [.printf "rc from MQTT subscribe is %d\r\n"] else []) ++
          [.printf "Subscribed to Topic: %s\n"] } := by
  unfold mainSubscribe
  by_cases h1 : b.clientConnect ≠ 0 <;> by_cases h2 : b.clientSubscribe ≠ 0 <;>
    simp [h1, h2, State.call, State.setRc]

theorem mainMqtt_spec (b : Boot) (s : State) (h0 : s.resetIssued = false)
    (hd : s.dispatching = false) :
    ((mainMqtt b s).1 = .dispatch → b.socketConnect = 0 ∧ b.firstYield = 0) ∧
    ((mainMqtt b s).1 ≠ .dispatch → (mainMqtt b s).2.dispatching = false) ∧
    publishCount (mainMqtt b s).2.calls = publishCount s.calls := by
  unfold mainMqtt
  by_cases h4 : b.socketConnect = 0
  · simp only [State.setRc, h4, ne_eq, not_true_eq_false, if_false]
    have hr : (mainSubscribe b { s.call .socketConnect with rc := 0 }).resetIssued = false := by
      rw [mainSubscribe_shape]; exact h0
    have hdd : (mainSubscribe b { s.call .socketConnect with rc := 0 }).dispatching = false := by
      rw [mainSubscribe_shape]; exact hd
    obtain ⟨a1, a2, a3⟩ := mainLoop_spec b _ hr hdd
    refine ⟨fun h => ⟨trivial, a1 h⟩, a2, ?_⟩
    rw [a3, mainSubscribe_shape]
    by_cases h2 : b.clientSubscribe ≠ 0 <;>
      simp [h2, State.call, publishCount, List.countP_append, List.countP_cons]
  · simp [h4, State.setRc, State.call, publishCount, List.countP_append, List.countP_cons, hd]

theorem main_spec (b : Boot) :
    ((main b).1 = .dispatch → b.socketConnect = 0 ∧ b.firstYield = 0) ∧
    ((main b).1 ≠ .dispatch → (main b).2.dispatching = false) ∧
    publishCount (main b).2.calls = 0 := by
  unfold main mainNetwork
  by_cases h1 : b.sensorInitialize = true
  · by_cases h2 : b.networkFound = true
    · by_cases h3 : b.networkConnect = 0
      · simp only [h1, h2, h3, State.setRc, Bool.not_true, Bool.false_eq_true, if_false,
          ne_eq, not_true_eq_false]
        refine ⟨(mainMqtt_spec b _ ?_ ?_).1, (mainMqtt_spec b _ ?_ ?_).2.1,
          (mainMqtt_spec b _ ?_ ?_).2.2.trans ?_⟩
        all_goals simp [State.call, State.init, publishCount]
      · simp [h1, h2, h3, State.setRc, State.call, State.init, publishCount]
    · simp [h1, h2, State.call, State.init, publishCount]
  · simp [h1, State.call, State.init, publishCount]

theorem step_publishCount (s : State) (ev : Event) :
    publishCount (step s ev).calls = publishCount s.calls ∨
      ((∃ r pubRc, ev = .sampleTick r pubRc) ∧
        s.streaming_enabled = true ∧ s.serving = true ∧
        publishCount (step s ev).calls = publishCount s.calls + 1) := by
  cases ev with
  | keepAliveTick rcv inbound =>
    left
    simp only [step]
    split
    · rw [yield_publishCount]; rfl
    · rfl
  | sampleTick r pubRc =>
    simp only [step]
    by_cases hc : (s.serving && s.tickerAttached) = true
    · rw [if_pos hc, UpdateData_publishCount]
      by_cases he : s.streaming_enabled = true
      · right
        simp only [Bool.and_eq_true] at hc
        refine ⟨⟨r, pubRc, rfl⟩, he, hc.1, ?_⟩
        simp [State.run, he]
      · left
        simp [State.run, he]
    · left
      rw [if_neg hc]
  | buttonFall =>
    left
    simp only [step, toggleStreaming]
    split
    · split <;> simp [State.call, State.run, publishCount, List.countP_append, List.countP_cons]
    · rfl

/-- C4, as the code has it: in every state reached from startup by any
sequence of events, a publish is attempted only by a sample tick (never by a
keep-alive tick or a press of the button), and only by one that starts with
`streaming_enabled` true while the dispatch loop is serving, in a run whose
startup got past the socket connection into the dispatch loop; the result of
`client->connect` is not among the conditions.  Such a tick makes exactly one
publish call, and no publish is attempted during startup. -/
theorem publish_only_when_streaming (b : Boot) (evs : List Event) (ev : Event)
    (h : publishCount (step (steps (main b).2 evs) ev).calls ≠
      publishCount (steps (main b).2 evs).calls) :
    (∃ r pubRc, ev = .sampleTick r pubRc) ∧
    (steps (main b).2 evs).streaming_enabled = true ∧
    (steps (main b).2 evs).serving = true ∧
    (main b).1 = .dispatch ∧ b.socketConnect = 0 ∧
    publishCount (step (steps (main b).2 evs) ev).calls =
      publishCount (steps (main b).2 evs).calls + 1 ∧
    publishCount (main b).2.calls = 0 := by
  obtain ⟨m1, m2, m3⟩ := main_spec b
  by_cases hd : (main b).1 = .dispatch
  · rcases step_publishCount (steps (main b).2 evs) ev with h1 | ⟨h0, h1, h2, h3⟩
    · exact absurd h1 h
    · exact ⟨h0, h1, h2, hd, (m1 hd).1, h3, m3⟩
  · exfalso
    have hoff : (main b).2.serving = false := by
      simp [State.serving, m2 hd]
    rw [steps_of_not_serving _ evs hoff, step_of_not_serving _ ev hoff] at h
    exact h rfl

/-- C4 fails as stated: with the MQTT handshake refused (`client->connect`
returns -1) startup still enters the dispatch loop, and the first sample tick
attempts a publish. -/
theorem publish_without_session :
    Boot.handshakeRefused.clientConnect ≠ 0 ∧
    (main Boot.handshakeRefused).1 = .dispatch ∧
    publishCount (main Boot.handshakeRefused).2.calls = 0 ∧
    publishCount (step (main Boot.handshakeRefused).2 (.sampleTick Reading.sample 0)).calls
      = 1 := by
  decide

/-- C4 at a concrete run: after a full startup and two presses of the button,
a sample tick publishes. -/
theorem publish_only_when_streaming_witness :
    publishCount (step (steps (main Boot.allFine).2 [.buttonFall, .buttonFall])
        (.sampleTick Reading.sample 0)).calls ≠
      publishCount (steps (main Boot.allFine).2 [.buttonFall, .buttonFall]).calls ∧
    ((∃ r pubRc, Event.sampleTick Reading.sample 0 = .sampleTick r pubRc) ∧
      (steps (main Boot.allFine).2 [.buttonFall, .buttonFall]).streaming_enabled = true ∧
      (steps (main Boot.allFine).2 [.buttonFall, .buttonFall]).serving = true ∧
      (main Boot.allFine).1 = .dispatch ∧ Boot.allFine.socketConnect = 0 ∧
      publishCount (step (steps (main Boot.allFine).2 [.buttonFall, .buttonFall])
          (.sampleTick Reading.sample 0)).calls =
        publishCount (steps (main Boot.allFine).2 [.buttonFall, .buttonFall]).calls + 1 ∧
      publishCount (main Boot.allFine).2.calls = 0) :=
  ⟨by decide, publish_only_when_streaming Boot.allFine [.buttonFall, .buttonFall]
    (.sampleTick Reading.sample 0) (by decide)⟩

theorem mainLoop_calls (b : Boot) (s : State) (h0 : s.resetIssued = false) :
    ∃ logs, (∀ c ∈ logs, c.isPrintf = true) ∧
      (mainLoop b s).2.calls = s.calls ++ [.clientYield 100] ++ logs ++
        (if b.firstYield ≠ 0 then
          [.printf "Yield error: %d\n", .queueCancel s.id_yield, .queueBreakDispatch,
           .systemReset]
         else [.queueCallEvery 1000, .tickerAttach 5, .buttonFall, .queueDispatchForever]) ∧
      (mainLoop b s).1 = (if b.firstYield ≠ 0 then .reset else .dispatch) := by
  obtain ⟨l, logs, hl, h⟩ := yield_shape b.firstYield b.firstInbound s
  refine ⟨logs, hl, ?_⟩
  unfold mainLoop
  by_cases hr : b.firstYield ≠ 0
  · rw [if_pos hr] at h
    have hres : (yield b.firstYield b.firstInbound s).resetIssued = true := by rw [h]
    simp only [hres, if_true, if_pos hr]
    rw [h]
    exact ⟨rfl, trivial⟩
  · rw [if_neg hr] at h
    have hres : (yield b.firstYield b.firstInbound s).resetIssued = false := by rw [h]; exact h0
    simp only [hres, if_neg hr]
    rw [h]
    simp [State.dispatchForever, State.armButton, State.attachTicker, State.callEvery,
      State.call, SYNC_INTERVAL]

theorem main_of_socket_failure (b : Boot) (h : b.socketConnect ≠ 0) :
    (∃ code, (main b).1 = .returned code) ∧
    startupActions (main b).2.calls = [] ∧
    (∃ msg, (main b).2.calls.getLast? = some (.printf msg)) := by
  unfold main mainNetwork mainMqtt
  by_cases h1 : b.sensorInitialize = true
  · by_cases h2 : b.networkFound = true
    · by_cases h3 : b.networkConnect = 0
      · simp [h1, h2, h3, h, State.setRc, State.call, State.init, startupActions]
      · simp [h1, h2, h3, State.setRc, State.call, State.init, startupActions]
    · simp [h1, h2, State.call, State.init, startupActions]
  · simp [h1, State.call, State.init, startupActions]

theorem mainMqtt_of_handshake_failure (b : Boot) (s : State)
    (h4 : b.socketConnect = 0) (h5 : b.clientConnect ≠ 0) (h0 : s.resetIssued = false)
    (hs : startupActions s.calls = []) :
    (mainMqtt b s).1 = (if b.firstYield ≠ 0 then .reset else .dispatch) ∧
    .printf "Connection to MQTT Broker Failed\n" ∈ (mainMqtt b s).2.calls ∧
    startupActions (mainMqtt b s).2.calls =
      .clientSubscribe MQTT_TOPIC_SUBSCRIBE 0 ::
        (if b.firstYield ≠ 0 then []
         else [.queueCallEvery 1000, .tickerAttach 5, .queueDispatchForever]) := by
  unfold mainMqtt
  simp only [State.setRc, h4, ne_eq, not_true_eq_false, if_false]
  obtain ⟨logs, hl, hc, ho⟩ := mainLoop_calls b
    (mainSubscribe b { s.call .socketConnect with rc := 0 })
    (by rw [mainSubscribe_shape]; exact h0)
  have hlogs : startupActions logs = [] := filter_logs_eq_nil _ (fun _ => rfl) logs hl
  have hsub := congrArg State.calls
    (mainSubscribe_shape b { s.call .socketConnect with rc := 0 })
  unfold startupActions at hs hlogs ⊢
  refine ⟨ho, ?_, ?_⟩
  · rw [hc, hsub]
    simp [h5, State.call]
  · rw [hc, hsub]
    by_cases h2 : b.clientSubscribe ≠ 0 <;> by_cases hr : b.firstYield ≠ 0 <;>
      simp [h2, hr, hs, hlogs, State.call, List.filter_append, List.filter_cons]

theorem main_of_handshake_failure (b : Boot) (h1 : b.sensorInitialize = true)
    (h2 : b.networkFound = true) (h3 : b.networkConnect = 0) (h4 : b.socketConnect = 0)
    (h5 : b.clientConnect ≠ 0) :
    (main b).1 = (if b.firstYield ≠ 0 then .reset else .dispatch) ∧
    .printf "Connection to MQTT Broker Failed\n" ∈ (main b).2.calls ∧
    startupActions (main b).2.calls =
      .clientSubscribe MQTT_TOPIC_SUBSCRIBE 0 ::
        (if b.firstYield ≠ 0 then []
         else [.queueCallEvery 1000, .tickerAttach 5, .queueDispatchForever]) := by
  unfold main mainNetwork
  simp only [h1, h2, h3, State.setRc, Bool.not_true, Bool.false_eq_true, if_false,
    ne_eq, not_true_eq_false]
  exact mainMqtt_of_handshake_failure b _ h4 h5 rfl (by simp [State.call, State.init, startupActions])

/-- C10, as the code has it: when `socket.connect` returns a non-zero code,
`main` logs and returns without subscribing, registering a periodic task or
entering the dispatch loop; when only `client->connect` returns a non-zero
code, `main` logs the failure and carries on: it subscribes and, unless the
first `yield` resets the device, registers both periodic tasks and enters the
dispatch loop. -/
theorem main_aborts_on_socket_failure_only (b : Boot) :
    (b.socketConnect ≠ 0 →
      (∃ code, (main b).1 = .returned code) ∧
      startupActions (main b).2.calls = [] ∧
      (∃ msg, (main b).2.calls.getLast? = some (.printf msg))) ∧
    (b.sensorInitialize = true → b.networkFound = true → b.networkConnect = 0 →
      b.socketConnect = 0 → b.clientConnect ≠ 0 →
      (main b).1 = (if b.firstYield ≠ 0 then .reset else .dispatch) ∧
      .printf "Connection to MQTT Broker Failed\n" ∈ (main b).2.calls ∧
      startupActions (main b).2.calls =
        .clientSubscribe MQTT_TOPIC_SUBSCRIBE 0 ::
          (if b.firstYield ≠ 0 then []
           else [.queueCallEvery 1000, .tickerAttach 5, .queueDispatchForever])) :=
  ⟨main_of_socket_failure b, main_of_handshake_failure b⟩

/-- C10 fails as stated: with `client->connect` returning -1, `main` logs the
failure, subscribes, registers both periodic tasks and enters the dispatch
loop. -/
theorem main_continues_after_handshake_failure :
    Boot.handshakeRefused.clientConnect ≠ 0 ∧
    (main Boot.handshakeRefused).1 = .dispatch ∧
    startupActions (main Boot.handshakeRefused).2.calls =
      [.clientSubscribe MQTT_TOPIC_SUBSCRIBE 0, .queueCallEvery 1000, .tickerAttach 5,
       .queueDispatchForever] ∧
    (main Boot.handshakeRefused).2.periodic = [7] ∧
    (main Boot.handshakeRefused).2.tickerAttached = true := by
  decide

/-- C10 at concrete startups: the socket refused, and the handshake refused. -/
theorem main_aborts_on_socket_failure_only_witness :
    (Boot.socketRefused.socketConnect ≠ 0 ∧
      (∃ code, (main Boot.socketRefused).1 = .returned code) ∧
      startupActions (main Boot.socketRefused).2.calls = [] ∧
      (∃ msg, (main Boot.socketRefused).2.calls.getLast? = some (.printf msg))) ∧
    (Boot.handshakeRefused.socketConnect = 0 ∧ Boot.handshakeRefused.clientConnect ≠ 0 ∧
      (main Boot.handshakeRefused).1 =
        (if Boot.handshakeRefused.firstYield ≠ 0 then .reset else .dispatch) ∧
      .printf "Connection to MQTT Broker Failed\n" ∈ (main Boot.handshakeRefused).2.calls ∧
      startupActions (main Boot.handshakeRefused).2.calls =
        .clientSubscribe MQTT_TOPIC_SUBSCRIBE 0 ::
          (if Boot.handshakeRefused.firstYield ≠ 0 then []
           else [.queueCallEvery 1000, .tickerAttach 5, .queueDispatchForever])) :=
  ⟨⟨by decide, (main_aborts_on_socket_failure_only Boot.socketRefused).1 (by decide)⟩,
    by decide, by decide,
    (main_aborts_on_socket_failure_only Boot.handshakeRefused).2 rfl rfl rfl rfl (by decide)⟩

/-! ### Rendering of single-precision values -/

theorem digitChar_isDigit (d : Nat) (h : d < 10) : (Nat.digitChar d).isDigit = true := by
  interval_cases d <;> decide

theorem toDigitsCore_isDigit (fuel : Nat) :
    ∀ (n : Nat) (acc : List Char), (∀ c ∈ acc, c.isDigit = true) →
      ∀ c ∈ Nat.toDigitsCore 10 fuel n acc, c.isDigit = true := by
  induction fuel with
  | zero => intro n acc h; simpa [Nat.toDigitsCore] using h
  | succ f ih =>
    intro n acc h
    have hacc : ∀ c ∈ Nat.digitChar (n % 10) :: acc, c.isDigit = true := by
      intro c hc
      rcases List.mem_cons.1 hc with rfl | hc
      · exact digitChar_isDigit _ (Nat.mod_lt _ (by decide))
      · exact h c hc
    simp only [Nat.toDigitsCore]
    split
    · exact hacc
    · exact ih _ _ hacc

theorem toDigits_isDigit (n : Nat) : ∀ c ∈ Nat.toDigits 10 n, c.isDigit = true :=
  toDigitsCore_isDigit _ _ _ (by simp)

theorem toDigitsCore_ne_nil (fuel : Nat) :
    ∀ (n : Nat) (acc : List Char), acc ≠ [] → Nat.toDigitsCore 10 fuel n acc ≠ [] := by
  induction fuel with
  | zero => intro n acc h; simpa [Nat.toDigitsCore] using h
  | succ f ih =>
    intro n acc _
    simp only [Nat.toDigitsCore]
    split
    · simp
    · exact ih _ _ (by simp)

theorem toDigits_ne_nil (n : Nat) : Nat.toDigits 10 n ≠ [] := by
  unfold Nat.toDigits
  simp only [Nat.toDigitsCore]
  split
  · simp
  · exact toDigitsCore_ne_nil _ _ _ (by simp)

theorem toDigits_length_le (n : Nat) (h : n < 10 ^ 39) : (Nat.toDigits 10 n).length ≤ 39 :=
  Nat.toDigitsCore_length 10 (by decide) (n + 1) n 39 h (by decide)

theorem roundHalfEven_le (a b : Nat) : roundHalfEven a b ≤ a / b + 1 := by
  unfold roundHalfEven
  split
  · omega
  · split
    · omega
    · split <;> omega

theorem fmt2_finite (neg : Bool) (m e : Nat) :
    fmt2 (.finite neg m e) =
      (if neg then ['-'] else []) ++
        Nat.toDigits 10 (roundHalfEven (m * 2 ^ e * 100) (2 ^ 149) / 100) ++
        ['.', Nat.digitChar (roundHalfEven (m * 2 ^ e * 100) (2 ^ 149) / 10 % 10),
          Nat.digitChar (roundHalfEven (m * 2 ^ e * 100) (2 ^ 149) % 10)] := rfl

theorem fmt2_length_le (x : F32) (h : x.IsFinite) : (fmt2 x).length ≤ 43 := by
  cases x with
  | finite neg m e =>
    obtain ⟨hm, he⟩ := h
    rw [fmt2_finite]
    have h1 : m * 2 ^ e * 100 ≤ 2 ^ 24 * 2 ^ 253 * 100 := by
      apply Nat.mul_le_mul_right
      exact Nat.mul_le_mul (le_of_lt hm) (Nat.pow_le_pow_right (by decide) he)
    have h2 : roundHalfEven (m * 2 ^ e * 100) (2 ^ 149) / 100 < 10 ^ 39 := by
      have := roundHalfEven_le (m * 2 ^ e * 100) (2 ^ 149)
      have h3 : m * 2 ^ e * 100 / 2 ^ 149 ≤ 2 ^ 24 * 2 ^ 253 * 100 / 2 ^ 149 :=
        Nat.div_le_div_right h1
      have h4 : roundHalfEven (m * 2 ^ e * 100) (2 ^ 149) ≤ 2 ^ 24 * 2 ^ 253 * 100 / 2 ^ 149 + 1 :=
        le_trans this (by omega)
      calc roundHalfEven (m * 2 ^ e * 100) (2 ^ 149) / 100
          ≤ (2 ^ 24 * 2 ^ 253 * 100 / 2 ^ 149 + 1) / 100 := Nat.div_le_div_right h4
        _ < 10 ^ 39 := by norm_num
    have h5 := toDigits_length_le _ h2
    generalize Nat.toDigits 10 _ = ds at h5 ⊢
    cases neg <;> simp only [List.length_append, List.length_cons, List.length_nil, if_true,
      Bool.false_eq_true, if_false] <;> omega
  | inf neg => exact h.elim
  | nan => exact h.elim
theorem exponentFor_le (a b E0 : Nat) (h : a * 2 ^ 149 < b * 2 ^ (E0 + 24)) :
    ∀ (fuel E : Nat), E ≤ E0 → E0 ≤ E + fuel → exponentFor a b fuel E ≤ E0 := by
  intro fuel
  induction fuel with
  | zero => intro E h1 _; simpa [exponentFor] using h1
  | succ f ih =>
    intro E h1 h2
    simp only [exponentFor]
    split
    · exact h1
    · rename_i hn
      have hne : E ≠ E0 := fun heq => hn (heq ▸ h)
      exact ih (E + 1) (by omega) (by omega)

theorem round32_isFinite (neg : Bool) (a b E0 : Nat) (hE : E0 ≤ 252)
    (h : a * 2 ^ 149 < b * 2 ^ (E0 + 24)) : (round32 neg a b).IsFinite := by
  have hle := exponentFor_le a b E0 h 254 0 (Nat.zero_le _) (by omega)
  unfold round32
  simp only []
  rw [if_neg (by omega)]
  split
  · rename_i hm
    exact ⟨hm, by omega⟩
  · rw [if_pos (by omega)]
    exact ⟨by norm_num, by omega⟩

theorem ofNat_hundred : F32.ofNat 100 = .finite false 13107200 132 := by
  decide

theorem div_hundred_isFinite (x : F32) (h : x.IsFinite) :
    (F32.div x (F32.ofNat 100)).IsFinite := by
  rw [ofNat_hundred]
  cases x with
  | finite neg m e =>
    obtain ⟨hm, he⟩ := h
    simp only [F32.div]
    rw [if_neg (by decide)]
    apply round32_isFinite _ _ _ (e - 1) (by omega)
    have hpos : 0 < 2 ^ (e - 1) := by positivity
    have hsplit : 2 ^ e ≤ 2 ^ (e - 1) * 2 := by
      rcases Nat.eq_zero_or_pos e with h0 | h0
      · subst h0; simp
      · have : e = (e - 1) + 1 := by omega
        rw [this, Nat.pow_succ]; simp
    calc m * 2 ^ e * 2 ^ 149
        ≤ m * (2 ^ (e - 1) * 2) * 2 ^ 149 :=
          Nat.mul_le_mul_right _ (Nat.mul_le_mul_left _ hsplit)
      _ = m * (2 ^ (e - 1) * 2 ^ 150) := by ring
      _ < 2 ^ 24 * (2 ^ (e - 1) * 2 ^ 150) :=
          Nat.mul_lt_mul_of_pos_right hm (by positivity)
      _ ≤ 13107200 * 2 ^ 132 * 2 ^ (e - 1 + 24) := by
          rw [Nat.pow_add]
          have : 2 ^ 24 * (2 ^ (e - 1) * 2 ^ 150) = 2 ^ (e - 1) * 2 ^ 174 := by ring
          rw [this]
          have : 13107200 * 2 ^ 132 * (2 ^ (e - 1) * 2 ^ 24) =
              2 ^ (e - 1) * (13107200 * 2 ^ 156) := by ring
          rw [this]
          exact Nat.mul_le_mul_left _ (by norm_num)
  | inf neg => exact h.elim
  | nan => exact h.elim
theorem takeWhile_append_stop {p : Char → Bool} (ds : List Char) (x : Char) (r : List Char)
    (h : ∀ c ∈ ds, p c = true) (hx : p x = false) :
    (ds ++ x :: r).takeWhile p = ds ∧ (ds ++ x :: r).dropWhile p = x :: r := by
  induction ds with
  | nil => simp [List.takeWhile_cons, List.dropWhile_cons, hx]
  | cons d ds ih =>
    have hd : p d = true := h d (List.mem_cons_self _ _)
    obtain ⟨i1, i2⟩ := ih (fun c hc => h c (List.mem_cons_of_mem _ hc))
    simp [List.takeWhile_cons, List.dropWhile_cons, hd, i1, i2]

theorem isTwoDecimal_fmt2 (neg : Bool) (m e : Nat) :
    isTwoDecimal (fmt2 (.finite neg m e)) = true := by
  rw [fmt2_finite]
  have hds := toDigits_isDigit (roundHalfEven (m * 2 ^ e * 100) (2 ^ 149) / 100)
  have hne := toDigits_ne_nil (roundHalfEven (m * 2 ^ e * 100) (2 ^ 149) / 100)
  have ha := digitChar_isDigit (roundHalfEven (m * 2 ^ e * 100) (2 ^ 149) / 10 % 10)
    (Nat.mod_lt _ (by decide))
  have hb := digitChar_isDigit (roundHalfEven (m * 2 ^ e * 100) (2 ^ 149) % 10)
    (Nat.mod_lt _ (by decide))
  generalize Nat.toDigits 10 _ = ds at hds hne
  generalize Nat.digitChar (_ / 10 % 10) = a at ha
  generalize Nat.digitChar (_ % 10) = b at hb
  obtain ⟨t1, t2⟩ := takeWhile_append_stop ds '.' [a, b] hds (by decide)
  cases neg with
  | true =>
    simp only [if_true, isTwoDecimal, List.cons_append, List.nil_append, t1, t2]
    cases ds with
    | nil => exact absurd rfl hne
    | cons d ds => simp [ha, hb]
  | false =>
    cases ds with
    | nil => exact absurd rfl hne
    | cons d ds =>
      have hd : d ≠ '-' := by
        intro hd
        have := hds d (List.mem_cons_self _ _)
        rw [hd] at this
        exact absurd this (by decide)
      simp only [List.cons_append] at t1 t2
      simp only [Bool.false_eq_true, if_false, isTwoDecimal, List.cons_append, List.nil_append,
        hd, t1, t2]
      simp [ha, hb]

theorem plain_of_fmt2 (neg : Bool) (m e : Nat) :
    ∀ c ∈ fmt2 (.finite neg m e), c ≠ '"' ∧ c ≠ '\\' ∧ ¬ c.toNat < 32 := by
  have hdig : ∀ c : Char, c.isDigit = true → c ≠ '"' ∧ c ≠ '\\' ∧ ¬ c.toNat < 32 := by
    intro c hc
    simp only [Char.isDigit, Bool.and_eq_true, decide_eq_true_eq] at hc
    have h1 : 48 ≤ c.toNat := hc.1
    have h2 : c.toNat ≤ 57 := hc.2
    refine ⟨?_, ?_, by omega⟩
    · rintro rfl; revert h1; decide
    · rintro rfl; revert h2; decide
  intro c hc
  rw [fmt2_finite] at hc
  simp only [List.mem_append, List.mem_cons, List.mem_nil_iff, or_false] at hc
  rcases hc with (hc | hc) | hc
  · cases neg
    · simp at hc
    · simp at hc; subst hc; decide
  · exact hdig c (toDigits_isDigit _ c hc)
  · rcases hc with rfl | rfl | rfl
    · decide
    · exact hdig _ (digitChar_isDigit _ (Nat.mod_lt _ (by decide)))
    · exact hdig _ (digitChar_isDigit _ (Nat.mod_lt _ (by decide)))

theorem scanString_plain (t : List Char) (rest : List Char)
    (h : ∀ c ∈ t, c ≠ '"' ∧ c ≠ '\\' ∧ ¬ c.toNat < 32) :
    scanString 0 (t ++ '"' :: rest) = some (t, rest) := by
  induction t with
  | nil => simp [scanString]
  | cons c t ih =>
    obtain ⟨h1, h2, h3⟩ := h c (List.mem_cons_self _ _)
    simp [scanString, h1, h2, h3, ih (fun d hd => h d (List.mem_cons_of_mem _ hd))]
theorem jsonExpansion_eq (t h p : F32) :
    jsonExpansion t h p =
      '\x7b' :: ' ' :: '"' :: ("feeds".toList ++ '"' :: ':' :: ' ' :: '\x7b' :: ' ' :: '"' ::
        ("Temperature".toList ++ '"' :: ':' :: ' ' :: '"' ::
          (fmt2 t ++ '"' :: ',' :: ' ' :: '"' ::
            ("Humidity".toList ++ '"' :: ':' :: ' ' :: '"' ::
              (fmt2 h ++ '"' :: ',' :: ' ' :: '"' ::
                ("Pressure".toList ++ '"' :: ':' :: ' ' :: '"' ::
                  (fmt2 p ++ ['"', ' ', '\x7d', ' ', '\x7d']))))))) := by
  simp [jsonExpansion]

theorem parseValue_message (k : Nat) (T H P : List Char)
    (hT : ∀ c ∈ T, c ≠ '"' ∧ c ≠ '\\' ∧ ¬ c.toNat < 32)
    (hH : ∀ c ∈ H, c ≠ '"' ∧ c ≠ '\\' ∧ ¬ c.toNat < 32)
    (hP : ∀ c ∈ P, c ≠ '"' ∧ c ≠ '\\' ∧ ¬ c.toNat < 32) :
    parseValue (k + 7)
      ('\x7b' :: ' ' :: '"' :: ("feeds".toList ++ '"' :: ':' :: ' ' :: '\x7b' :: ' ' :: '"' ::
        ("Temperature".toList ++ '"' :: ':' :: ' ' :: '"' ::
          (T ++ '"' :: ',' :: ' ' :: '"' ::
            ("Humidity".toList ++ '"' :: ':' :: ' ' :: '"' ::
              (H ++ '"' :: ',' :: ' ' :: '"' ::
                ("Pressure".toList ++ '"' :: ':' :: ' ' :: '"' ::
                  (P ++ ['"', ' ', '\x7d', ' ', '\x7d']))))))))
      = some (Json.obj [("feeds".toList, Json.obj
          [("Temperature".toList, Json.str T), ("Humidity".toList, Json.str H),
           ("Pressure".toList, Json.str P)])], []) := by
  have kFeeds : ∀ c ∈ "feeds".toList, c ≠ '"' ∧ c ≠ '\\' ∧ ¬ c.toNat < 32 := by decide
  have kT : ∀ c ∈ "Temperature".toList, c ≠ '"' ∧ c ≠ '\\' ∧ ¬ c.toNat < 32 := by decide
  have kH : ∀ c ∈ "Humidity".toList, c ≠ '"' ∧ c ≠ '\\' ∧ ¬ c.toNat < 32 := by decide
  have kP : ∀ c ∈ "Pressure".toList, c ≠ '"' ∧ c ≠ '\\' ∧ ¬ c.toNat < 32 := by decide
  generalize "feeds".toList = s1 at kFeeds ⊢
  generalize "Temperature".toList = s2 at kT ⊢
  generalize "Humidity".toList = s3 at kH ⊢
  generalize "Pressure".toList = s4 at kP ⊢
  simp [parseValue.eq_3, parseMembers.eq_3, skipWs, isWs]
  rw [scanString_plain _ _ kFeeds]
  simp [parseValue.eq_3, parseMembers.eq_3, skipWs, isWs]
  rw [scanString_plain _ _ kT]
  simp [parseValue.eq_3, parseMembers.eq_3, skipWs, isWs]
  rw [scanString_plain _ _ hT]
  simp [parseValue.eq_3, parseMembers.eq_3, skipWs, isWs]
  rw [scanString_plain _ _ kH]
  simp [parseValue.eq_3, parseMembers.eq_3, skipWs, isWs]
  rw [scanString_plain _ _ hH]
  simp [parseValue.eq_3, parseMembers.eq_3, skipWs, isWs]
  rw [scanString_plain _ _ kP]
  simp [parseValue.eq_3, parseMembers.eq_3, skipWs, isWs]
  rw [scanString_plain _ _ hP]
  simp [parseValue.eq_3, parseMembers.eq_3, skipWs, isWs]
theorem isTwoDecimal_of_isFinite (x : F32) (h : x.IsFinite) : isTwoDecimal (fmt2 x) = true := by
  cases x with
  | finite neg m e => exact isTwoDecimal_fmt2 neg m e
  | inf neg => exact h.elim
  | nan => exact h.elim

theorem plain_of_isFinite (x : F32) (h : x.IsFinite) :
    ∀ c ∈ fmt2 x, c ≠ '"' ∧ c ≠ '\\' ∧ ¬ c.toNat < 32 := by
  cases x with
  | finite neg m e => exact plain_of_fmt2 neg m e
  | inf neg => exact h.elim
  | nan => exact h.elim

theorem jsonExpansion_length (t h p : F32) :
    (jsonExpansion t h p).length = (fmt2 t).length + (fmt2 h).length + (fmt2 p).length + 66 := by
  rw [jsonExpansion_eq]
  simp only [List.length_cons, List.length_append, List.length_nil]
  have e1 : "feeds".toList.length = 5 := by decide
  have e2 : "Temperature".toList.length = 11 := by decide
  have e3 : "Humidity".toList.length = 8 := by decide
  have e4 : "Pressure".toList.length = 8 := by decide
  omega

theorem parseJson_jsonExpansion (t h p : F32) (ht : t.IsFinite) (hh : h.IsFinite)
    (hp : p.IsFinite) :
    parseJson (jsonExpansion t h p) =
      some (Json.obj [("feeds".toList, Json.obj
        [("Temperature".toList, Json.str (fmt2 t)), ("Humidity".toList, Json.str (fmt2 h)),
         ("Pressure".toList, Json.str (fmt2 p))])]) := by
  have hlen := jsonExpansion_length t h p
  obtain ⟨k, hk⟩ : ∃ k, (jsonExpansion t h p).length + 1 = k + 7 :=
    ⟨(jsonExpansion t h p).length - 6, by omega⟩
  unfold parseJson
  rw [hk, jsonExpansion_eq]
  have hws : ∀ rest : List Char, skipWs ('\x7b' :: rest) = '\x7b' :: rest := by
    intro rest; simp [skipWs, isWs]
  rw [hws, parseValue_message k _ _ _ (plain_of_isFinite t ht) (plain_of_isFinite h hh)
    (plain_of_isFinite p hp)]
  simp [skipWs]

/-- C8: for every reading whose three values are finite single-precision
numbers, the message `UpdateData` formats is the whole expansion of its format
string (nothing is cut off by the 256-byte buffer, whose 255 usable bytes it
fits), it is a complete JSON text, namely an object with the one member
`feeds` holding an object with exactly the members `Temperature`, `Humidity`
and `Pressure`, and each of the three is rendered with exactly two digits
after the decimal point. -/
theorem jsonMessage_wellformed (r : Reading) (ht : r.temperature.IsFinite)
    (hh : r.humidity.IsFinite) (hp : r.pressure.IsFinite) :
    jsonMessage r =
      jsonExpansion r.temperature r.humidity (F32.div r.pressure (F32.ofNat 100)) ∧
    (jsonMessage r).length ≤ 255 ∧
    parseJson (jsonMessage r) =
      some (Json.obj [("feeds".toList, Json.obj
        [("Temperature".toList, Json.str (fmt2 r.temperature)),
         ("Humidity".toList, Json.str (fmt2 r.humidity)),
         ("Pressure".toList, Json.str (fmt2 (F32.div r.pressure (F32.ofNat 100))))])]) ∧
    isTwoDecimal (fmt2 r.temperature) = true ∧
    isTwoDecimal (fmt2 r.humidity) = true ∧
    isTwoDecimal (fmt2 (F32.div r.pressure (F32.ofNat 100))) = true := by
  have hq := div_hundred_isFinite r.pressure hp
  have hlen := jsonExpansion_length r.temperature r.humidity (F32.div r.pressure (F32.ofNat 100))
  have l1 := fmt2_length_le _ ht
  have l2 := fmt2_length_le _ hh
  have l3 := fmt2_length_le _ hq
  have hfit : jsonMessage r =
      jsonExpansion r.temperature r.humidity (F32.div r.pressure (F32.ofNat 100)) := by
    unfold jsonMessage snprintf
    exact List.take_of_length_le (by omega)
  refine ⟨hfit, ?_, ?_, isTwoDecimal_of_isFinite _ ht, isTwoDecimal_of_isFinite _ hh,
    isTwoDecimal_of_isFinite _ hq⟩
  · rw [hfit]; omega
  · rw [hfit]; exact parseJson_jsonExpansion _ _ _ ht hh hq

/-- C8 at the reading 23.456 °C, 55.1 %RH, 101325 Pa. -/
theorem jsonMessage_wellformed_witness :
    Reading.sample.temperature.IsFinite ∧ Reading.sample.humidity.IsFinite ∧
    Reading.sample.pressure.IsFinite ∧
    (jsonMessage Reading.sample =
      jsonExpansion Reading.sample.temperature Reading.sample.humidity
        (F32.div Reading.sample.pressure (F32.ofNat 100)) ∧
    (jsonMessage Reading.sample).length ≤ 255 ∧
    parseJson (jsonMessage Reading.sample) =
      some (Json.obj [("feeds".toList, Json.obj
        [("Temperature".toList, Json.str (fmt2 Reading.sample.temperature)),
         ("Humidity".toList, Json.str (fmt2 Reading.sample.humidity)),
         ("Pressure".toList,
           Json.str (fmt2 (F32.div Reading.sample.pressure (F32.ofNat 100))))])]) ∧
    isTwoDecimal (fmt2 Reading.sample.temperature) = true ∧
    isTwoDecimal (fmt2 Reading.sample.humidity) = true ∧
    isTwoDecimal (fmt2 (F32.div Reading.sample.pressure (F32.ofNat 100))) = true) :=
  ⟨by decide, by decide, by decide,
    jsonMessage_wellformed Reading.sample (by decide) (by decide) (by decide)⟩

/-! ### The published payload -/

/-- C7: for the reading 23.456 °C, 55.1 %RH, 101325 Pa the three fields are
rendered `23.46`, `55.10` and `1013.25` (the pressure divided by 100), and
`UpdateData` publishes exactly this message. -/
theorem UpdateData_sample_payload :
    fmt2 Reading.sample.temperature = "23.46".toList ∧
    fmt2 Reading.sample.humidity = "55.10".toList ∧
    fmt2 (F32.div Reading.sample.pressure (F32.ofNat 100)) = "1013.25".toList ∧
    jsonMessage Reading.sample =
      ("\x7b \"feeds\": \x7b \"Temperature\": \"23.46\", \"Humidity\": \"55.10\", " ++
        "\"Pressure\": \"1013.25\" \x7d \x7d").toList ∧
    (UpdateData Reading.sample 0 State.init).calls =
      [.sensorTemperature, .sensorHumidity, .sensorPressure,
       .printf "Send JSON: %s to MQTT Broker: %s at thread %s\n",
       .clientPublish MQTT_TOPIC_PUBLISH 1
         ("\x7b \"feeds\": \x7b \"Temperature\": \"23.46\", \"Humidity\": \"55.10\", " ++
           "\"Pressure\": \"1013.25\" \x7d \x7d").toList 83] := by
  decide

end StationMeteo
